import Mathlib

/-!
Shallow embedding of `src/web/utils/generate_service_account_access_token.py`.

The script builds a JWT claim set, signs it with a service-account RSA key
(via the external `google.auth` library), POSTs it to the OAuth2 token
endpoint, persists the JSON response, and returns the access token.

External effects (file system, RSA signing, HTTP) are modelled by an
explicit environment of pure functions, and the effects performed by a run
are recorded as an event trace, so that ordering claims ("no network call
happens after a signing failure") become statements about the trace.
-/

namespace GmMedia

/-- A JSON value as produced by Python's `json.loads` on the inputs this
program handles: strings, integers, and objects (insertion-ordered). -/
inductive Json where
  | str : String → Json
  | num : Int → Json
  | obj : List (String × Json) → Json

/-- Escape one character the way Python's `json.dumps` does for the
character set appearing in this program's data. -/
def escJsonChar (c : Char) : String :=
  if c = '"' then "\\\""
  else if c = '\\' then "\\\\"
  else if c = '\n' then "\\n"
  else if c = '\t' then "\\t"
  else if c = '\r' then "\\r"
  else String.singleton c

/-- Serialize a string as a JSON string literal (Python `json.dumps`). -/
def dumpStr (s : String) : String :=
  "\"" ++ String.join (s.toList.map escJsonChar) ++ "\""

mutual

/-- Python `json.dumps` with its default separators `", "` and `": "`. -/
def dumps : Json → String
  | .str s => dumpStr s
  | .num n => toString n
  | .obj kvs => "\x7b" ++ dumpMembers kvs ++ "\x7d"

/-- Serialize the members of a JSON object, comma-space separated. -/
def dumpMembers : List (String × Json) → String
  | [] => ""
  | [(k, v)] => dumpStr k ++ ": " ++ dumps v
  | (k, v) :: x :: rest => dumpStr k ++ ": " ++ dumps v ++ ", " ++ dumpMembers (x :: rest)

end

/-- Skip JSON whitespace. -/
def skipWs : List Char → List Char
  | c :: cs => if c = ' ' ∨ c = '\t' ∨ c = '\n' ∨ c = '\r' then skipWs cs else c :: cs
  | [] => []

/-- Decode one escape character of a JSON string literal. -/
def unescChar (e : Char) : Option Char :=
  if e = '"' then some '"'
  else if e = '\\' then some '\\'
  else if e = '/' then some '/'
  else if e = 'n' then some '\n'
  else if e = 't' then some '\t'
  else if e = 'r' then some '\r'
  else none

/-- Parse the body of a JSON string literal (after the opening quote),
returning the decoded string and the remaining input. -/
def parseStringBody : List Char → Option (String × List Char)
  | [] => none
  | c :: cs =>
    if c = '"' then some ("", cs)
    else if c = '\\' then
      match cs with
      | [] => none
      | e :: cs' =>
        match unescChar e, parseStringBody cs' with
        | some d, some (s, rest) => some (String.singleton d ++ s, rest)
        | _, _ => none
    else
      match parseStringBody cs with
      | some (s, rest) => some (String.singleton c ++ s, rest)
      | none => none

/-- Take a maximal run of decimal digits. -/
def takeDigits : List Char → List Char × List Char
  | c :: cs =>
    if c.isDigit then
      let (d, r) := takeDigits cs
      (c :: d, r)
    else ([], c :: cs)
  | [] => ([], [])

/-- Numeric value of a digit run. -/
def digitsToNat (ds : List Char) : Nat :=
  ds.foldl (fun a c => a * 10 + (c.toNat - 48)) 0

/-- Insert a key into an insertion-ordered dictionary, replacing the value
in place if the key exists (Python `dict` semantics). -/
def dictInsert (k : String) (v : Json) : List (String × Json) → List (String × Json)
  | [] => [(k, v)]
  | (k', v') :: rest => if k' = k then (k, v) :: rest else (k', v') :: dictInsert k v rest

mutual

/-- Parse one JSON value (fuelled recursive descent). -/
def parseValue (fuel : Nat) (cs : List Char) : Option (Json × List Char) :=
  match fuel with
  | 0 => none
  | f + 1 =>
    match skipWs cs with
    | [] => none
    | c :: rest =>
      if c = '"' then
        match parseStringBody rest with
        | some (s, r) => some (Json.str s, r)
        | none => none
      else if c = '\x7b' then parseObjBody f (skipWs rest)
      else if c = '-' then
        match takeDigits rest with
        | ([], _) => none
        | (ds, r) => some (Json.num (-(digitsToNat ds : Int)), r)
      else if c.isDigit then
        match takeDigits (c :: rest) with
        | (ds, r) => some (Json.num (digitsToNat ds), r)
      else none

/-- Parse a JSON object body after the opening brace. -/
def parseObjBody (fuel : Nat) (cs : List Char) : Option (Json × List Char) :=
  match fuel with
  | 0 => none
  | f + 1 =>
    match cs with
    | '\x7d' :: rest => some (Json.obj [], rest)
    | _ => parseMembers f cs []

/-- Parse the members of a JSON object, accumulating a dictionary. -/
def parseMembers (fuel : Nat) (cs : List Char) (acc : List (String × Json)) :
    Option (Json × List Char) :=
  match fuel with
  | 0 => none
  | f + 1 =>
    match skipWs cs with
    | '"' :: rest =>
      match parseStringBody rest with
      | none => none
      | some (k, r1) =>
        match skipWs r1 with
        | ':' :: r2 =>
          match parseValue f r2 with
          | none => none
          | some (v, r3) =>
            match skipWs r3 with
            | ',' :: r4 => parseMembers f r4 (dictInsert k v acc)
            | '\x7d' :: r4 => some (Json.obj (dictInsert k v acc), r4)
            | _ => none
        | _ => none
    | _ => none

end

/-- Python `json.loads` on the JSON fragment this program exchanges. -/
def loads (s : String) : Option Json :=
  match parseValue (s.length + 1) s.toList with
  | some (j, rest) => if skipWs rest = [] then some j else none
  | none => none

/-- First-match lookup in an insertion-ordered dictionary (keys are unique
because `dictInsert` replaces in place). -/
def lookupKey (k : String) : List (String × Json) → Option Json
  | [] => none
  | (k', v) :: rest => if k' = k then some v else lookupKey k rest

/-- Python string split on a comma separator: `s.split(",")`. The result is
never empty; splitting the empty string yields `[""]`. -/
def splitCommaAux : List Char → List Char → List String
  | [], acc => [String.mk acc.reverse]
  | c :: cs, acc =>
    if c = ',' then String.mk acc.reverse :: splitCommaAux cs []
    else splitCommaAux cs (c :: acc)

/-- `scopes_arg.split(",")` from line 82 of the source. -/
def pySplitComma (s : String) : List String := splitCommaAux s.toList []

/-- Python `sep.join(parts)`. -/
def joinWith (sep : String) : List String → String
  | [] => ""
  | [x] => x
  | x :: y :: rest => x ++ sep ++ joinWith sep (y :: rest)

/-- Truthiness of an optional Python string: `None` and `""` are falsy. -/
def pyTruthy : Option String → Bool
  | none => false
  | some s => s ≠ ""

/-- `int(dt.timestamp())` for a UTC datetime holding `secs` unix seconds and
`micros` microseconds: truncation of `secs + micros / 10^6` toward zero,
i.e. the floor, since the value is non-negative. -/
def intTimestamp (secs micros : Nat) : Nat := secs + micros / 1000000

/-- The JWT claim set built at lines 94-105 of the source. -/
structure Payload where
  iss : String
  sub : String
  aud : String
  scope : String
  iat : Nat
  exp : Nat
deriving DecidableEq

/-- The fixed OAuth2 token endpoint. -/
def tokenUrl : String := "https://oauth2.googleapis.com/token"

/-- The fixed grant type of the exchange request. -/
def grantType : String := "urn:ietf:params:oauth:grant-type:jwt-bearer"

/-- The fixed output file of the persist step. -/
def tokenFile : String := "service_account_token.json"

/-- Claims construction, lines 92-105: `now` is taken as unix seconds plus
microseconds; `exp` is the datetime one hour later (same microseconds,
seconds + 3600); both are converted with `int(..timestamp())`. -/
def buildPayload (serviceAccountEmail : String) (delegateEmail : Option String)
    (scopes : List String) (nowSecs nowMicros : Nat) : Payload :=
  { iss := serviceAccountEmail
    sub := if pyTruthy delegateEmail then delegateEmail.getD "" else serviceAccountEmail
    aud := tokenUrl
    scope := joinWith " " scopes
    iat := intTimestamp nowSecs nowMicros
    exp := intTimestamp (nowSecs + 3600) nowMicros }

/-- An HTTP response as seen by the script (`requests.Response`). -/
structure HttpResponse where
  status_code : Nat
  text : String
deriving DecidableEq

/-- The observable side effects of one run. -/
inductive Event where
  | fileRead : String → Event
  | netPost : String → List (String × String) → Event
  | fileWrite : String → String → Event
deriving DecidableEq

/-- The Python exceptions the script can raise. -/
inductive Err where
  | ioError : String → Err
  | jsonDecodeError : Err
  | keyError : String → Err
  | typeError : Err
  | signerError : Err
  | exc : String → Err
  | writeError : String → Err
deriving DecidableEq

/-- Python `d[k]` on a parsed JSON value: `KeyError` on a missing key,
`TypeError` when the value is not a dict. -/
def pyGetItem (j : Json) (k : String) : Except Err Json :=
  match j with
  | .obj kvs =>
    match lookupKey k kvs with
    | some v => .ok v
    | none => .error (.keyError k)
  | _ => .error .typeError

/-- Environment of external operations. File reads, RSA key parsing
(`google.auth.crypt.RSASigner.from_string`), JWT signing
(`google.auth.jwt.encode`, a deterministic function of signer and payload
since RS256 uses PKCS#1 v1.5 padding with no random input), the HTTP POST,
and whether a file write succeeds are modelled as pure functions. -/
structure Env where
  readFile : String → Option String
  fromString : String → Option String
  jwtEncode : String → Payload → String
  httpPost : String → List (String × String) → HttpResponse
  writeOk : String → String → Bool

/-- Lines 111-127: exchange the JWT for an access token and persist the
response. On a non-200 status the script raises
`Exception("Error getting access token: " + response.text)`; on 200 it
writes `json.dumps(response.json())` to the token file and then extracts
`response.json()["access_token"]`. -/
def exchangeAndPersist (env : Env) (priorEvents : List Event) (jwt : String) :
    List Event × Except Err Json :=
  let data := [("grant_type", grantType), ("assertion", jwt)]
  let response := env.httpPost tokenUrl data
  let evs := priorEvents ++ [Event.netPost tokenUrl data]
  if response.status_code ≠ 200 then
    (evs, .error (.exc ("Error getting access token: " ++ response.text)))
  else
    match loads response.text with
    | none => (evs, .error .jsonDecodeError)
    | some respJson =>
      if env.writeOk tokenFile (dumps respJson) then
        let evs2 := evs ++ [Event.fileWrite tokenFile (dumps respJson)]
        match pyGetItem respJson "access_token" with
        | .error e => (evs2, .error e)
        | .ok tok => (evs2, .ok tok)
      else (evs, .error (.writeError tokenFile))

/-- `generate_jwt_and_access_token` (lines 61-127). The clock is passed in
as `nowSecs`/`nowMicros`; the result is the event trace together with the
returned access token or the raised exception. -/
def generate (env : Env) (serviceAccountEmailArg privateKeyFileArg : String)
    (delegateEmailArg : Option String) (scopesArg : String)
    (nowSecs nowMicros : Nat) : List Event × Except Err Json :=
  let scopes := pySplitComma scopesArg
  match env.readFile privateKeyFileArg with
  | none => ([Event.fileRead privateKeyFileArg], .error (.ioError privateKeyFileArg))
  | some privateKey =>
    match loads privateKey with
    | none => ([Event.fileRead privateKeyFileArg], .error .jsonDecodeError)
    | some fileKey =>
      let payload := buildPayload serviceAccountEmailArg delegateEmailArg scopes nowSecs nowMicros
      match pyGetItem fileKey "private_key" with
      | .error e => ([Event.fileRead privateKeyFileArg], .error e)
      | .ok (.str pem) =>
        match env.fromString pem with
        | none => ([Event.fileRead privateKeyFileArg], .error .signerError)
        | some signer =>
          exchangeAndPersist env [Event.fileRead privateKeyFileArg] (env.jwtEncode signer payload)
      | .ok _ => ([Event.fileRead privateKeyFileArg], .error .typeError)

/-- What `main` does after the required-input checks: it prints either the
token or the caught exception. -/
inductive MainResult where
  | tokenPrinted : Json → MainResult
  | errorPrinted : Err → MainResult

/-- `main` (lines 130-151): flag values come in as optional strings; missing
issuer or delegate email raises before `generate_jwt_and_access_token` (and
hence before any file read or network call); otherwise exceptions from the
pipeline are caught and printed. -/
def main (env : Env) (serviceAccountEmail delegateEmail : Option String)
    (privateKeyFile scopesArg : String) (nowSecs nowMicros : Nat) :
    List Event × Except Err MainResult :=
  if ¬ pyTruthy serviceAccountEmail then
    ([], .error (.exc "service account is required"))
  else if ¬ pyTruthy delegateEmail then
    ([], .error (.exc "delegate email is required"))
  else
    match generate env (serviceAccountEmail.getD "") privateKeyFile delegateEmail
        scopesArg nowSecs nowMicros with
    | (evs, .ok tok) => (evs, .ok (.tokenPrinted tok))
    | (evs, .error e) => (evs, .ok (.errorPrinted e))

/-- When the key file reads, parses, carries a string `private_key` field,
and the signer parses, the run is the exchange-and-persist stage applied to
the signed JWT, after the single file-read event. -/
theorem generate_reaches_exchange (env : Env) (iss path sc pem sg key : String)
    (d : Option String) (fk : Json) (s m : Nat)
    (hread : env.readFile path = some key)
    (hparse : loads key = some fk)
    (hpk : pyGetItem fk "private_key" = .ok (.str pem))
    (hsig : env.fromString pem = some sg) :
    generate env iss path d sc s m =
      exchangeAndPersist env [Event.fileRead path]
        (env.jwtEncode sg (buildPayload iss d (pySplitComma sc) s m)) := by
  simp only [generate, hread, hparse, hpk, hsig]

/-- The separator-prefixed tail of a joined list. -/
def joinTail (sep : String) : List String → String
  | [] => ""
  | a :: rest => sep ++ a ++ joinTail sep rest

theorem intercalate_go_eq (sep : String) :
    ∀ (as : List String) (acc : String),
      String.intercalate.go acc sep as = acc ++ joinTail sep as := by
  intro as
  induction as with
  | nil => intro acc; simp [String.intercalate.go, joinTail]
  | cons a rest ih =>
    intro acc
    simp only [String.intercalate.go, joinTail, ih, String.append_assoc]

theorem joinWith_eq_joinTail (sep : String) :
    ∀ (a : String) (as : List String),
      joinWith sep (a :: as) = a ++ joinTail sep as := by
  intro a as
  induction as generalizing a with
  | nil => simp [joinWith, joinTail]
  | cons b rest ih =>
    simp only [joinWith, joinTail, ih, String.append_assoc]

/-- The source's `" ".join` agrees with the standard library join. -/
theorem joinWith_eq_intercalate (sep : String) (l : List String) :
    joinWith sep l = String.intercalate sep l := by
  cases l with
  | nil => rfl
  | cons a as =>
    rw [joinWith_eq_joinTail, String.intercalate, intercalate_go_eq]

/-- Claim C3: for every invocation of the claims builder at any timestamp
(unix seconds `s` plus microseconds `m < 10^6`), the claim set satisfies
`exp = iat + 3600` exactly, hence `exp > iat`, and `iat` is the integer
unix-seconds value of `now`. -/
theorem c3_exp_is_iat_plus_3600 (iss : String) (d : Option String)
    (scopes : List String) (s m : Nat) (hm : m < 1000000) :
    (buildPayload iss d scopes s m).exp = (buildPayload iss d scopes s m).iat + 3600
    ∧ (buildPayload iss d scopes s m).iat < (buildPayload iss d scopes s m).exp
    ∧ (buildPayload iss d scopes s m).iat = s := by
  refine ⟨?_, ?_, ?_⟩ <;> simp only [buildPayload, intTimestamp] <;> omega

/-- Witness for C3 at a concrete timestamp with maximal microseconds. -/
theorem c3_witness :
    999999 < 1000000
    ∧ ((buildPayload "sa@example.com" none ["a"] 1700000000 999999).exp
          = (buildPayload "sa@example.com" none ["a"] 1700000000 999999).iat + 3600
      ∧ (buildPayload "sa@example.com" none ["a"] 1700000000 999999).iat
          < (buildPayload "sa@example.com" none ["a"] 1700000000 999999).exp
      ∧ (buildPayload "sa@example.com" none ["a"] 1700000000 999999).iat = 1700000000) :=
  ⟨by decide, c3_exp_is_iat_plus_3600 "sa@example.com" none ["a"] 1700000000 999999 (by decide)⟩

/-- Claim C4: the `sub` claim is the delegate email when it is present and
non-empty, and the issuer email when the delegate is absent or empty. -/
theorem c4_sub_is_delegate_or_issuer (iss : String) (d : Option String)
    (scopes : List String) (s m : Nat) :
    (buildPayload iss d scopes s m).sub =
      match d with
      | some x => if x = "" then iss else x
      | none => iss := by
  cases d with
  | none => simp [buildPayload, pyTruthy]
  | some x =>
    by_cases hx : x = "" <;> simp [buildPayload, pyTruthy, hx]

/-- Claim C5: the `scope` claim is the input scope list joined with single
spaces, preserving the input order. -/
theorem c5_scope_is_space_joined (iss : String) (d : Option String)
    (S : List String) (s m : Nat) :
    (buildPayload iss d S s m).scope = String.intercalate " " S := by
  simp only [buildPayload]
  exact joinWith_eq_intercalate " " S

/-- Claim C1 (amended): on any non-200 token-exchange response the function
fails with an exception whose message carries the raw response body — but
not the HTTP status code — the token file is not written, and no access
token is returned. -/
theorem c1_non200_raises_body_no_write (env : Env)
    (iss path sc pem sg key : String) (d : Option String) (fk : Json)
    (s m : Nat) (resp : HttpResponse)
    (hread : env.readFile path = some key)
    (hparse : loads key = some fk)
    (hpk : pyGetItem fk "private_key" = .ok (.str pem))
    (hsig : env.fromString pem = some sg)
    (hpost : env.httpPost = fun _ _ => resp)
    (hcode : resp.status_code ≠ 200) :
    (generate env iss path d sc s m).2 =
      .error (.exc ("Error getting access token: " ++ resp.text))
    ∧ ∀ p c, Event.fileWrite p c ∉ (generate env iss path d sc s m).1 := by
  rw [generate_reaches_exchange env iss path sc pem sg key d fk s m hread hparse hpk hsig]
  simp only [exchangeAndPersist, hpost]
  simp [hcode]

/-- Contents of the private-key file used by the concrete runs below. -/
def keyFileContent : String := "\x7b\"private_key\": \"PEMDATA\"\x7d"

/-- The 401 body from the spec's own example. -/
def errBody : String := "\x7b\"error\":\"invalid_grant\"\x7d"

/-- Environment whose token exchange answers 401 with `errBody`. -/
def env401 : Env :=
  { readFile := fun _ => some keyFileContent
    fromString := fun s => some s
    jwtEncode := fun _ _ => "SIGNEDJWT"
    httpPost := fun _ _ => ⟨401, errBody⟩
    writeOk := fun _ _ => true }

/-- The same environment except the exchange answers 403. -/
def env403 : Env :=
  { env401 with httpPost := fun _ _ => ⟨403, errBody⟩ }

/-- Counterexample to claim C1 as stated: with the same body, a 401 and a
403 response produce the very same raised exception and trace — the error
carries only `"Error getting access token: "` plus the body, so it cannot
carry the HTTP status code. -/
theorem c1_counterexample :
    generate env401 "sa@example.com" "credentials.json" (some "user@example.com")
        "s1,s2" 1700000000 0
      = generate env403 "sa@example.com" "credentials.json" (some "user@example.com")
        "s1,s2" 1700000000 0
    ∧ (generate env401 "sa@example.com" "credentials.json" (some "user@example.com")
        "s1,s2" 1700000000 0).2
      = .error (.exc ("Error getting access token: " ++ errBody))
    ∧ (env401.httpPost tokenUrl []).status_code ≠ (env403.httpPost tokenUrl []).status_code :=
  ⟨rfl, rfl, by decide⟩

/-- Witness for the amended C1 at the spec's 401 example. -/
theorem c1_witness :
    (401 : Nat) ≠ 200
    ∧ ((generate env401 "sa@example.com" "credentials.json" (some "user@example.com")
          "s1,s2" 1700000000 0).2
        = .error (.exc ("Error getting access token: " ++ errBody))
      ∧ ∀ p c, Event.fileWrite p c ∉
          (generate env401 "sa@example.com" "credentials.json" (some "user@example.com")
            "s1,s2" 1700000000 0).1) :=
  ⟨by decide,
    c1_non200_raises_body_no_write env401 "sa@example.com" "credentials.json" "s1,s2"
      "PEMDATA" "PEMDATA" keyFileContent (some "user@example.com")
      (Json.obj [("private_key", Json.str "PEMDATA")]) 1700000000 0 ⟨401, errBody⟩
      rfl rfl rfl rfl rfl (by decide)⟩

/-- Claim C2 (amended): if writing the token file fails after a successful
exchange, the write exception propagates and the function does not return
the access token; persistence failure is fatal, not best-effort. -/
theorem c2_write_failure_is_fatal (env : Env)
    (iss path sc pem sg key : String) (d : Option String) (fk bj : Json)
    (s m : Nat) (resp : HttpResponse)
    (hread : env.readFile path = some key)
    (hparse : loads key = some fk)
    (hpk : pyGetItem fk "private_key" = .ok (.str pem))
    (hsig : env.fromString pem = some sg)
    (hpost : env.httpPost = fun _ _ => resp)
    (hcode : resp.status_code = 200)
    (hbody : loads resp.text = some bj)
    (hwrite : env.writeOk tokenFile (dumps bj) = false) :
    (generate env iss path d sc s m).2 = .error (.writeError tokenFile) := by
  rw [generate_reaches_exchange env iss path sc pem sg key d fk s m hread hparse hpk hsig]
  simp only [exchangeAndPersist, hpost]
  simp [hcode, hbody, hwrite]

/-- The 200 body from the spec's own example. -/
def okBody : String := "\x7b\"access_token\":\"abc123\",\"expires_in\":3600\x7d"

/-- The parsed value of `okBody`. -/
def okJson : Json := Json.obj [("access_token", Json.str "abc123"), ("expires_in", Json.num 3600)]

/-- Environment with a successful exchange but a failing file write. -/
def envC2 : Env :=
  { readFile := fun _ => some keyFileContent
    fromString := fun s => some s
    jwtEncode := fun _ _ => "SIGNEDJWT"
    httpPost := fun _ _ => ⟨200, okBody⟩
    writeOk := fun _ _ => false }

/-- Counterexample to claim C2 as stated: with a 200 response carrying
`"abc123"` but a failing write, the run ends in the write error and the
access token is not returned. -/
theorem c2_counterexample :
    (generate envC2 "sa@example.com" "credentials.json" (some "user@example.com")
        "s1" 1700000000 0).2 = .error (.writeError tokenFile)
    ∧ (generate envC2 "sa@example.com" "credentials.json" (some "user@example.com")
        "s1" 1700000000 0).2 ≠ .ok (Json.str "abc123") := by
  refine ⟨rfl, fun h => ?_⟩
  have he : (generate envC2 "sa@example.com" "credentials.json" (some "user@example.com")
      "s1" 1700000000 0).2 = .error (.writeError tokenFile) := rfl
  rw [he] at h
  exact Except.noConfusion h

/-- Witness for the amended C2 at the concrete failing-write run. -/
theorem c2_witness :
    envC2.writeOk tokenFile (dumps okJson) = false
    ∧ (generate envC2 "sa@example.com" "credentials.json" (some "user@example.com")
        "s1" 1700000000 0).2 = .error (.writeError tokenFile) :=
  ⟨rfl,
    c2_write_failure_is_fatal envC2 "sa@example.com" "credentials.json" "s1"
      "PEMDATA" "PEMDATA" keyFileContent (some "user@example.com")
      (Json.obj [("private_key", Json.str "PEMDATA")]) okJson 1700000000 0 ⟨200, okBody⟩
      rfl rfl rfl rfl rfl rfl rfl rfl⟩

/-- Claim C6 (amended): on an HTTP 200 response the persisted token file
contains `json.dumps(response.json())` — the parsed body re-serialized with
Python's default `", "` and `": "` separators — which need not be
byte-identical to the raw body received from the server. -/
theorem c6_persists_reserialized_body (env : Env)
    (iss path sc pem sg key : String) (d : Option String) (fk bj : Json)
    (s m : Nat) (resp : HttpResponse)
    (hread : env.readFile path = some key)
    (hparse : loads key = some fk)
    (hpk : pyGetItem fk "private_key" = .ok (.str pem))
    (hsig : env.fromString pem = some sg)
    (hpost : env.httpPost = fun _ _ => resp)
    (hcode : resp.status_code = 200)
    (hbody : loads resp.text = some bj)
    (hwrite : env.writeOk tokenFile (dumps bj) = true) :
    Event.fileWrite tokenFile (dumps bj) ∈ (generate env iss path d sc s m).1 := by
  rw [generate_reaches_exchange env iss path sc pem sg key d fk s m hread hparse hpk hsig]
  simp only [exchangeAndPersist, hpost]
  cases hpg : pyGetItem bj "access_token" <;> simp [hcode, hbody, hwrite, hpg]

/-- Environment with a successful exchange and a succeeding file write. -/
def envC6 : Env :=
  { readFile := fun _ => some keyFileContent
    fromString := fun s => some s
    jwtEncode := fun _ _ => "SIGNEDJWT"
    httpPost := fun _ _ => ⟨200, okBody⟩
    writeOk := fun _ _ => true }

/-- The file content the run actually writes for `okBody`. -/
def dumpedOkBody : String := "\x7b\"access_token\": \"abc123\", \"expires_in\": 3600\x7d"

/-- Counterexample to claim C6 as stated: for the spec's own 200 example
body, the run writes the re-serialized JSON (with added spaces after `:`
and `,`), not the verbatim raw body, and the two strings differ. -/
theorem c6_counterexample :
    Event.fileWrite tokenFile dumpedOkBody
      ∈ (generate envC6 "sa@example.com" "credentials.json" (some "user@example.com")
          "s1" 1700000000 0).1
    ∧ Event.fileWrite tokenFile okBody
      ∉ (generate envC6 "sa@example.com" "credentials.json" (some "user@example.com")
          "s1" 1700000000 0).1
    ∧ dumpedOkBody ≠ okBody := by
  refine ⟨?_, ?_, ?_⟩ <;> decide

/-- Witness for the amended C6 at the concrete 200 run. -/
theorem c6_witness :
    envC6.writeOk tokenFile (dumps okJson) = true
    ∧ Event.fileWrite tokenFile (dumps okJson)
        ∈ (generate envC6 "sa@example.com" "credentials.json" (some "user@example.com")
            "s1" 1700000000 0).1 :=
  ⟨rfl,
    c6_persists_reserialized_body envC6 "sa@example.com" "credentials.json" "s1"
      "PEMDATA" "PEMDATA" keyFileContent (some "user@example.com")
      (Json.obj [("private_key", Json.str "PEMDATA")]) okJson 1700000000 0 ⟨200, okBody⟩
      rfl rfl rfl rfl rfl rfl rfl rfl⟩

/-- Claim C7: when the issuer (service account) email or the delegate email
is missing (absent or empty), `main` fails before any file read or network
call — the event trace is empty — with a distinct message per missing
field. -/
theorem c7_missing_inputs_fail_fast (env : Env) (issuer delegate : Option String)
    (path sc : String) (s m : Nat)
    (h : pyTruthy issuer = false ∨ pyTruthy delegate = false) :
    (main env issuer delegate path sc s m).1 = []
    ∧ (main env issuer delegate path sc s m).2 =
        .error (.exc (if pyTruthy issuer = false then "service account is required"
            else "delegate email is required"))
    ∧ ("service account is required" : String) ≠ "delegate email is required" := by
  refine ⟨?_, ?_, by decide⟩ <;>
  · rcases h with h | h
    · simp [main, h]
    · by_cases hi : pyTruthy issuer = false
      · simp [main, hi]
      · rw [Bool.not_eq_false] at hi
        simp [main, h, hi]

/-- Environment for the missing-issuer witness; its functions are never
reached. -/
def envC7 : Env :=
  { readFile := fun _ => some keyFileContent
    fromString := fun s => some s
    jwtEncode := fun _ _ => "SIGNEDJWT"
    httpPost := fun _ _ => ⟨200, okBody⟩
    writeOk := fun _ _ => true }

/-- Witness for C7: a missing issuer email aborts with an empty trace. -/
theorem c7_witness :
    (pyTruthy none = false ∨ pyTruthy (some "user@example.com") = false)
    ∧ ((main envC7 none (some "user@example.com") "credentials.json" "s1" 1700000000 0).1 = []
      ∧ (main envC7 none (some "user@example.com") "credentials.json" "s1" 1700000000 0).2 =
          .error (.exc (if pyTruthy none = false then "service account is required"
              else "delegate email is required"))
      ∧ ("service account is required" : String) ≠ "delegate email is required") :=
  ⟨Or.inl rfl,
    c7_missing_inputs_fail_fast envC7 none (some "user@example.com") "credentials.json" "s1"
      1700000000 0 (Or.inl rfl)⟩

/-- Claim C8: when the `private_key` field is not a parseable RSA private
key, the run fails with the signer's parse error and the trace contains no
network call. -/
theorem c8_bad_key_never_reaches_network (env : Env)
    (iss path sc pem key : String) (d : Option String) (fk : Json) (s m : Nat)
    (hread : env.readFile path = some key)
    (hparse : loads key = some fk)
    (hpk : pyGetItem fk "private_key" = .ok (.str pem))
    (hsig : env.fromString pem = none) :
    (generate env iss path d sc s m).2 = .error .signerError
    ∧ ∀ u dt, Event.netPost u dt ∉ (generate env iss path d sc s m).1 := by
  simp [generate, hread, hparse, hpk, hsig]

/-- Environment whose RSA key material does not parse. -/
def envC8 : Env :=
  { readFile := fun _ => some keyFileContent
    fromString := fun _ => none
    jwtEncode := fun _ _ => "SIGNEDJWT"
    httpPost := fun _ _ => ⟨200, okBody⟩
    writeOk := fun _ _ => true }

/-- Witness for C8 at a concrete unparseable key. -/
theorem c8_witness :
    envC8.fromString "PEMDATA" = none
    ∧ ((generate envC8 "sa@example.com" "credentials.json" (some "user@example.com")
          "s1" 1700000000 0).2 = .error .signerError
      ∧ ∀ u dt, Event.netPost u dt ∉
          (generate envC8 "sa@example.com" "credentials.json" (some "user@example.com")
            "s1" 1700000000 0).1) :=
  ⟨rfl,
    c8_bad_key_never_reaches_network envC8 "sa@example.com" "credentials.json" "s1"
      "PEMDATA" keyFileContent (some "user@example.com")
      (Json.obj [("private_key", Json.str "PEMDATA")]) 1700000000 0
      rfl rfl rfl rfl⟩

/-- Claim C9: with the external signer modelled as the pure function it is
(RS256 uses PKCS#1 v1.5 padding, which takes no random input), two runs
with the same key file, inputs, and timestamp produce identical traces —
in particular the posted signed assertion is byte-identical. -/
theorem c9_signing_deterministic (env : Env) (iss path sc : String)
    (d : Option String) (s m s' m' : Nat) (hs : s = s') (hm : m = m') :
    generate env iss path d sc s m = generate env iss path d sc s' m' := by
  subst hs
  subst hm
  rfl

/-- Environment for the determinism witness. -/
def envC9 : Env :=
  { readFile := fun _ => some keyFileContent
    fromString := fun s => some s
    jwtEncode := fun sg p => sg ++ "." ++ p.scope
    httpPost := fun _ _ => ⟨200, okBody⟩
    writeOk := fun _ _ => true }

/-- Witness for C9 at a concrete repeated run. -/
theorem c9_witness :
    (1700000000 : Nat) = 1700000000
    ∧ (500000 : Nat) = 500000
    ∧ generate envC9 "sa@example.com" "credentials.json" (some "user@example.com")
        "s1,s2" 1700000000 500000
      = generate envC9 "sa@example.com" "credentials.json" (some "user@example.com")
        "s1,s2" 1700000000 500000 :=
  ⟨rfl, rfl,
    c9_signing_deterministic envC9 "sa@example.com" "credentials.json" "s1,s2"
      (some "user@example.com") 1700000000 500000 1700000000 500000 rfl rfl⟩

/-- Claim C10: on an HTTP 200 response whose JSON object lacks the
`access_token` key, the token file is still written — the persist step runs
before token extraction — and the run then fails with the key error, so no
token is returned. -/
theorem c10_write_precedes_extraction (env : Env)
    (iss path sc pem sg key : String) (d : Option String) (fk : Json)
    (kvs : List (String × Json)) (s m : Nat) (resp : HttpResponse)
    (hread : env.readFile path = some key)
    (hparse : loads key = some fk)
    (hpk : pyGetItem fk "private_key" = .ok (.str pem))
    (hsig : env.fromString pem = some sg)
    (hpost : env.httpPost = fun _ _ => resp)
    (hcode : resp.status_code = 200)
    (hbody : loads resp.text = some (Json.obj kvs))
    (hmiss : lookupKey "access_token" kvs = none)
    (hwrite : env.writeOk tokenFile (dumps (Json.obj kvs)) = true) :
    Event.fileWrite tokenFile (dumps (Json.obj kvs)) ∈ (generate env iss path d sc s m).1
    ∧ (generate env iss path d sc s m).2 = .error (.keyError "access_token") := by
  rw [generate_reaches_exchange env iss path sc pem sg key d fk s m hread hparse hpk hsig]
  simp only [exchangeAndPersist, hpost]
  simp [hcode, hbody, hwrite, pyGetItem, hmiss]

/-- A 200 body with no `access_token` key. -/
def noTokenBody : String := "\x7b\"expires_in\":3600\x7d"

/-- Environment answering 200 with `noTokenBody`. -/
def envC10 : Env :=
  { readFile := fun _ => some keyFileContent
    fromString := fun s => some s
    jwtEncode := fun _ _ => "SIGNEDJWT"
    httpPost := fun _ _ => ⟨200, noTokenBody⟩
    writeOk := fun _ _ => true }

/-- Witness for C10 at the concrete token-less 200 response. -/
theorem c10_witness :
    lookupKey "access_token" [("expires_in", Json.num 3600)] = none
    ∧ (Event.fileWrite tokenFile (dumps (Json.obj [("expires_in", Json.num 3600)]))
        ∈ (generate envC10 "sa@example.com" "credentials.json" (some "user@example.com")
            "s1" 1700000000 0).1
      ∧ (generate envC10 "sa@example.com" "credentials.json" (some "user@example.com")
          "s1" 1700000000 0).2 = .error (.keyError "access_token")) :=
  ⟨rfl,
    c10_write_precedes_extraction envC10 "sa@example.com" "credentials.json" "s1"
      "PEMDATA" "PEMDATA" keyFileContent (some "user@example.com")
      (Json.obj [("private_key", Json.str "PEMDATA")])
      [("expires_in", Json.num 3600)] 1700000000 0 ⟨200, noTokenBody⟩
      rfl rfl rfl rfl rfl rfl rfl rfl rfl⟩

end GmMedia
